import Mathlib

/-!
Shallow embedding of `jules-scratch/verification/verify_migration.py`.

The Python script is a single linear procedure over the Playwright
synchronous API: it launches a headless browser, opens one page, performs
three navigate-and-assert checks (taking screenshots for two of them and
printing a confirmation after each), then closes the browser.

We embed it as a literal list of effect steps (`script`) together with an
interpreter (`execFrom` / `runScript`) parameterised by an environment
oracle `env : Nat → Bool` that reports, for the k-th fallible operation
(a `goto` navigation or an `expect(...).to_be_visible()` assertion),
whether the browser layer lets it succeed.  A failing fallible operation
raises, aborting the run at that point, exactly as an unhandled Playwright
`AssertionError` / `TimeoutError` would; all other steps (screenshot,
print, launch, close) are modelled as infallible.  The interpreter returns
the trace of steps the run issued (the failing step included, since it was
attempted) and whether the run finished or raised.
-/

namespace VerifyMigration

/-- `http://localhost:3000/login`, the first URL visited. -/
def loginUrl : String := "http://localhost:3000/login"

/-- `http://localhost:3000/dashboard`, the second URL visited. -/
def dashboardUrl : String := "http://localhost:3000/dashboard"

/-- `http://localhost:3000/landing`, the third URL visited. -/
def landingUrl : String := "http://localhost:3000/landing"

/-- Heading text expected on the login view (and again after the dashboard
navigation). -/
def loginHeading : String := "Welcome to WealthLog"

/-- Heading text expected on the landing view. -/
def landingHeading : String := "Dashboard"

/-- Path of the first screenshot file. -/
def loginShotPath : String := "jules-scratch/verification/login-page.png"

/-- Path of the second screenshot file. -/
def dashboardShotPath : String := "jules-scratch/verification/dashboard-page.png"

/-- Console message after the login screenshot. -/
def loginShotMsg : String := "Screenshot of login page taken."

/-- Console message after the dashboard heading assertion. -/
def redirectMsg : String := "Redirected to login page from dashboard as expected."

/-- Console message after the landing screenshot. -/
def landingShotMsg : String := "Screenshot of dashboard page taken."

/-- One observable side effect of the script.  Steps operating on a page
object carry the identifier `pid` of that page (`browser.new_page()` is
numbered from 0). -/
inductive Step where
  | launch : Step
  | newPage : Nat → Step
  | goto : Nat → String → Step
  | expectHeading : Nat → String → Step
  | screenshot : Nat → String → Step
  | print : String → Step
  | close : Step
  deriving DecidableEq, Repr

/-- The statements of `run`, in source order. -/
def script : List Step :=
  [Step.launch,
   Step.newPage 0,
   Step.goto 0 loginUrl,
   Step.expectHeading 0 loginHeading,
   Step.screenshot 0 loginShotPath,
   Step.print loginShotMsg,
   Step.goto 0 dashboardUrl,
   Step.expectHeading 0 loginHeading,
   Step.print redirectMsg,
   Step.goto 0 landingUrl,
   Step.expectHeading 0 landingHeading,
   Step.screenshot 0 dashboardShotPath,
   Step.print landingShotMsg,
   Step.close]

/-- Whether a step can fail (navigations and visibility assertions can;
they raise on failure and the script has no handler). -/
def fallible : Step → Bool
  | Step.goto _ _ => true
  | Step.expectHeading _ _ => true
  | _ => false

/-- Whether the run finished normally or aborted with an unhandled
exception. -/
inductive Outcome where
  | success : Outcome
  | raised : Outcome
  deriving DecidableEq, Repr

/-- Execute a list of steps.  `k` counts the fallible operations already
executed; `env k` tells whether the k-th fallible operation succeeds.
Returns the steps actually issued and the outcome: the first failing
fallible step ends the trace with `Outcome.raised`. -/
def execFrom (env : Nat → Bool) : List Step → Nat → List Step × Outcome
  | [], _ => ([], Outcome.success)
  | s :: rest, k =>
    if fallible s then
      if env k then
        (s :: (execFrom env rest (k + 1)).1, (execFrom env rest (k + 1)).2)
      else
        ([s], Outcome.raised)
    else
      (s :: (execFrom env rest k).1, (execFrom env rest k).2)

/-- Run the whole script under environment `env`. -/
def runScript (env : Nat → Bool) : List Step × Outcome :=
  execFrom env script 0

/-- Case analysis of a run: a run either aborts at the first fallible
operation the environment fails (its trace is the corresponding prefix of
`script`, ending with the failing step) or finishes with the full trace. -/
theorem runScript_cases (env : Nat → Bool) :
    runScript env =
      if env 0 = false then (script.take 3, Outcome.raised)
      else if env 1 = false then (script.take 4, Outcome.raised)
      else if env 2 = false then (script.take 7, Outcome.raised)
      else if env 3 = false then (script.take 8, Outcome.raised)
      else if env 4 = false then (script.take 10, Outcome.raised)
      else if env 5 = false then (script.take 11, Outcome.raised)
      else (script, Outcome.success) := by
  cases h0 : env 0
  · simp [runScript, script, execFrom, fallible, h0]
  · cases h1 : env 1
    · simp [runScript, script, execFrom, fallible, h0, h1]
    · cases h2 : env 2
      · simp [runScript, script, execFrom, fallible, h0, h1, h2]
      · cases h3 : env 3
        · simp [runScript, script, execFrom, fallible, h0, h1, h2, h3]
        · cases h4 : env 4
          · simp [runScript, script, execFrom, fallible, h0, h1, h2, h3, h4]
          · cases h5 : env 5
            · simp [runScript, script, execFrom, fallible, h0, h1, h2, h3, h4, h5]
            · simp [runScript, script, execFrom, fallible, h0, h1, h2, h3, h4, h5]

/-- Every trace the script can produce is a prefix (`take n`) of
`script`. -/
theorem trace_is_take (env : Nat → Bool) :
    ∃ n, n ≤ 14 ∧ (runScript env).1 = script.take n := by
  rw [runScript_cases env]
  split_ifs
  · exact ⟨3, by decide, rfl⟩
  · exact ⟨4, by decide, rfl⟩
  · exact ⟨7, by decide, rfl⟩
  · exact ⟨8, by decide, rfl⟩
  · exact ⟨10, by decide, rfl⟩
  · exact ⟨11, by decide, rfl⟩
  · exact ⟨14, by decide, by decide⟩

/-- Whether a step is a navigation. -/
def isGoto : Step → Bool
  | Step.goto _ _ => true
  | _ => false

/-- Claim C1: on the success path (every navigation and assertion
succeeds) the run performs exactly the listed sequence of side effects in
this order — launch, open one page, goto login, assert the
"Welcome to WealthLog" heading, screenshot, print, goto dashboard, assert
the same heading, print, goto landing, assert the "Dashboard" heading,
screenshot, print, close — with three navigations in total and no other
effects. -/
theorem success_run_effect_sequence (env : Nat → Bool) (h : ∀ k, env k = true) :
    runScript env =
      ([Step.launch,
        Step.newPage 0,
        Step.goto 0 loginUrl,
        Step.expectHeading 0 loginHeading,
        Step.screenshot 0 loginShotPath,
        Step.print loginShotMsg,
        Step.goto 0 dashboardUrl,
        Step.expectHeading 0 loginHeading,
        Step.print redirectMsg,
        Step.goto 0 landingUrl,
        Step.expectHeading 0 landingHeading,
        Step.screenshot 0 dashboardShotPath,
        Step.print landingShotMsg,
        Step.close], Outcome.success) ∧
    ((runScript env).1.filter isGoto).length = 3 := by
  rw [runScript_cases env]
  simp [h 0, h 1, h 2, h 3, h 4, h 5]
  constructor
  · rfl
  · decide

/-- Witness for C1: the all-successful environment satisfies the
hypothesis, and the run finishes with `Outcome.success`. -/
theorem success_run_effect_sequence_witness :
    (runScript (fun _ => true)).2 = Outcome.success := by
  rw [(success_run_effect_sequence (fun _ => true) (fun _ => rfl)).1]

/-- Position in `script` of the j-th fallible operation (navigations are
at positions 2, 6, 9 and assertions at 3, 7, 10). -/
def failPos (j : Nat) : Nat := [2, 3, 6, 7, 9, 10].getD j 0

/-- Claim C2: if the environment fails the j-th fallible operation (and
let the earlier ones succeed), the run raises and its trace is exactly the
prefix of `script` ending with the failing step: no screenshot, message or
navigation after the failing step occurs, and no step is retried (the
trace is a plain prefix of the source order). -/
theorem failure_aborts_without_retry (env : Nat → Bool) (j : Nat)
    (hj : j < 6) (hfail : env j = false) (hpre : ∀ i, i < j → env i = true) :
    (runScript env).2 = Outcome.raised ∧
    (runScript env).1 = script.take (failPos j + 1) := by
  rw [runScript_cases env]
  interval_cases j
  · simp [hfail, failPos]
  · have h0 := hpre 0 (by omega)
    simp [hfail, h0, failPos]
  · have h0 := hpre 0 (by omega)
    have h1 := hpre 1 (by omega)
    simp [hfail, h0, h1, failPos]
  · have h0 := hpre 0 (by omega)
    have h1 := hpre 1 (by omega)
    have h2 := hpre 2 (by omega)
    simp [hfail, h0, h1, h2, failPos]
  · have h0 := hpre 0 (by omega)
    have h1 := hpre 1 (by omega)
    have h2 := hpre 2 (by omega)
    have h3 := hpre 3 (by omega)
    simp [hfail, h0, h1, h2, h3, failPos]
  · have h0 := hpre 0 (by omega)
    have h1 := hpre 1 (by omega)
    have h2 := hpre 2 (by omega)
    have h3 := hpre 3 (by omega)
    have h4 := hpre 4 (by omega)
    simp [hfail, h0, h1, h2, h3, h4, failPos]

/-- Witness for C2: an environment failing the fourth fallible operation
(the dashboard heading assertion) raises. -/
theorem failure_aborts_without_retry_witness :
    (runScript (fun k => !(k == 3))).2 = Outcome.raised :=
  (failure_aborts_without_retry (fun k => !(k == 3)) 3 (by decide) (by decide)
    (by decide)).1

/-- Whether a step writes a screenshot file. -/
def isShot : Step → Bool
  | Step.screenshot _ _ => true
  | _ => false

/-- Claim C3: the script writes exactly two screenshots, at the fixed
paths `jules-scratch/verification/login-page.png` and
`jules-scratch/verification/dashboard-page.png`; in any run the first is
written only if the login navigation and the login heading assertion
succeeded, the second only if every earlier operation including the
landing heading assertion succeeded; and no screenshot occurs in the
dashboard step (the steps between the dashboard navigation and the
landing navigation). -/
theorem screenshots_paths_and_order (env : Nat → Bool) :
    script.filter isShot =
      [Step.screenshot 0 loginShotPath, Step.screenshot 0 dashboardShotPath] ∧
    (Step.screenshot 0 loginShotPath ∈ (runScript env).1 →
      env 0 = true ∧ env 1 = true) ∧
    (Step.screenshot 0 dashboardShotPath ∈ (runScript env).1 →
      ∀ k, k < 6 → env k = true) ∧
    ((script.drop 6).take 3).filter isShot = [] := by
  refine ⟨by decide, ?_, ?_, by decide⟩
  all_goals rw [runScript_cases env]
  all_goals split_ifs with e0 e1 e2 e3 e4 e5
  all_goals
    first
        | (intro hmem; exact absurd hmem (by decide))
        | (intro hmem
           refine ⟨by simpa using e0, by simpa using e1⟩)
        | (intro hmem k hk
           interval_cases k <;> simp_all)

/-- Witness for C3: in the all-successful run the login screenshot is in
the trace, so the theorem yields that the first two fallible operations
succeeded. -/
theorem screenshots_paths_and_order_witness :
    (fun _ : Nat => true) 0 = true ∧ (fun _ : Nat => true) 1 = true :=
  (screenshots_paths_and_order (fun _ => true)).2.1 (by decide)

/-- Claim C4: the dashboard check asserts exactly the login heading: after
navigating to `http://localhost:3000/dashboard` (position 6) the script
asserts visibility of a heading named "Welcome to WealthLog" (position 7)
— the same step value as the login assertion at position 3, not a
dashboard-specific heading — and then prints its confirmation message
(position 8). -/
theorem dashboard_asserts_login_heading :
    script[6]? = some (Step.goto 0 dashboardUrl) ∧
    script[7]? = some (Step.expectHeading 0 loginHeading) ∧
    script[3]? = some (Step.expectHeading 0 loginHeading) ∧
    script[8]? = some (Step.print redirectMsg) ∧
    loginHeading = "Welcome to WealthLog" ∧
    dashboardUrl = "http://localhost:3000/dashboard" := by
  decide

/-- Claim C5: exactly one browser launch occurs, as the first step, and on
any successful run the browser is closed exactly once, as the last step of
the trace, so no step uses the browser after the close. -/
theorem browser_lifecycle (env : Nat → Bool)
    (h : (runScript env).2 = Outcome.success) :
    script.count Step.launch = 1 ∧
    script[0]? = some Step.launch ∧
    (runScript env).1.count Step.close = 1 ∧
    (runScript env).1.getLast? = some Step.close := by
  rw [runScript_cases env] at h ⊢
  split_ifs at h ⊢
  all_goals simp_all
  all_goals decide

/-- Witness for C5: the all-successful environment yields a successful
run. -/
theorem browser_lifecycle_witness :
    (runScript (fun _ => true)).1.getLast? = some Step.close :=
  (browser_lifecycle (fun _ => true) (by decide)).2.2.2

/-- Boolean check that in a trace every heading assertion is immediately
preceded by a navigation (so no assertion runs before the `goto` of its
step has been issued). -/
def precededOk (tr : List Step) : Bool :=
  (List.range tr.length).all fun i =>
    match tr.getD i Step.launch with
    | Step.expectHeading _ _ =>
      match i with
      | 0 => false
      | i0 + 1 =>
        match tr.getD i0 Step.launch with
        | Step.goto _ _ => true
        | _ => false
    | _ => true

/-- Claim C6: in every run — whatever prefix of the script it executes —
each heading assertion in the trace is preceded (in fact immediately) by
the navigation of its step. -/
theorem assertion_preceded_by_navigation (env : Nat → Bool) :
    precededOk (runScript env).1 = true := by
  obtain ⟨n, hle, htr⟩ := trace_is_take env
  rw [htr]
  have hall : ∀ m, m ≤ 14 → precededOk (script.take m) = true := by decide
  exact hall n hle

/-- Claim C7: the third check targets the public landing route: the script
navigates to `http://localhost:3000/landing` (position 9) and asserts a
heading with text "Dashboard" there (position 10). -/
theorem landing_route_check :
    script[9]? = some (Step.goto 0 landingUrl) ∧
    script[10]? = some (Step.expectHeading 0 landingHeading) ∧
    landingUrl = "http://localhost:3000/landing" ∧
    landingHeading = "Dashboard" := by
  decide

/-- Claim C8: the script takes no inputs — its only parameter is the
responses of the browser layer — so two runs in which the browser layer
answers each fallible operation identically issue the identical sequence
of steps (URLs, assertions, screenshot paths, console messages) and the
same outcome. -/
theorem deterministic_given_responses (envA envB : Nat → Bool)
    (h : ∀ k, envA k = envB k) :
    runScript envA = runScript envB := by
  have he : envA = envB := funext h
  rw [he]

/-- Witness for C8: two syntactically distinct but pointwise equal
environments produce the same run. -/
theorem deterministic_given_responses_witness :
    runScript (fun _ => true) = runScript (fun k => k == k) := by
  exact deterministic_given_responses (fun _ => true) (fun k => k == k)
    (fun k => by simp)

/-- Claim C9: the dashboard step inspects nothing but heading visibility:
the confirmation "Redirected to login page from dashboard as expected." is
printed exactly when the run reaches the dashboard step and the
"Welcome to WealthLog" heading assertion after the dashboard navigation
succeeds (fallible operations 0–3) — the model carries no page-URL check,
so no actual redirect is required for the message. -/
theorem redirect_message_iff_heading_visible (env : Nat → Bool) :
    Step.print redirectMsg ∈ (runScript env).1 ↔
      (env 0 = true ∧ env 1 = true ∧ env 2 = true ∧ env 3 = true) := by
  rw [runScript_cases env]
  split_ifs with e0 e1 e2 e3 e4 e5
  all_goals simp_all
  all_goals decide

/-- The page object (if any) a step operates on. -/
def pageOf : Step → Option Nat
  | Step.newPage p => some p
  | Step.goto p _ => some p
  | Step.expectHeading p _ => some p
  | Step.screenshot p _ => some p
  | _ => none

/-- Whether a step creates a page context. -/
def isNewPage : Step → Bool
  | Step.newPage _ => true
  | _ => false

/-- Claim C10: exactly one page context is created in the whole run, and
every page-touching step — the three navigations, the three assertions
and the two screenshots — operates on that single page object (page 0);
no navigation opens a new page or context. -/
theorem single_page_context :
    script.filter isNewPage = [Step.newPage 0] ∧
    (∀ s ∈ script, pageOf s = none ∨ pageOf s = some 0) ∧
    (script.filter (fun s => !isNewPage s && pageOf s == some 0)).length = 8 := by
  decide

/-- Witness for C10: the dashboard navigation step operates on page 0. -/
theorem single_page_context_witness :
    pageOf (Step.goto 0 dashboardUrl) = none ∨
      pageOf (Step.goto 0 dashboardUrl) = some 0 :=
  single_page_context.2.1 (Step.goto 0 dashboardUrl) (by decide)

end VerifyMigration
